import Mathlib

/-
Verification development for the DealPact escrow bot (src/bot/index.js).
Each definition below is a shallow embedding of the corresponding source
function; theorems settle the specification claims against them.
-/

namespace DealPact

/-- Deal lifecycle status, mirroring the string statuses used in the store:
pending_deposit, funded, completed, disputed, cancelled, refunded. -/
inductive Status
  | pending_deposit
  | funded
  | completed
  | disputed
  | cancelled
  | refunded
  deriving DecidableEq, Repr

/-- A row of the deals table, with the columns read or written by the bot. -/
structure Deal where
  deal_id : String
  seller_telegram_id : Nat
  seller_username : String
  buyer_telegram_id : Nat := 0
  buyer_username : String
  amount : ℚ
  description : String := ""
  status : Status
  contract_deal_id : Option Nat := none
  disputed_by : Option String := none
  disputed_by_telegram_id : Option Nat := none
  dispute_reason : Option String := none
  disputed_at : Option Nat := none
  assigned_to_telegram_id : Option Nat := none
  assigned_to_username : Option String := none
  assigned_at : Option Nat := none
  assigned_by : Option String := none
  resolved_by : Option String := none
  completed_at : Option Nat := none
  seller_rating : Option Nat := none
  buyer_rating : Option Nat := none
  seller_review : Option String := none
  buyer_review : Option String := none
  funded_at : Option Nat := none
  release_reminder_sent : Bool := false
  deriving DecidableEq, Repr

/-- A row of the users table (telegram_id is the conflict key of upserts). -/
structure UserRow where
  telegram_id : Nat
  username : String
  wallet_address : String
  deriving DecidableEq, Repr

/-- A row of the moderators table. -/
structure Moderator where
  telegram_id : Nat
  username : String
  is_active : Bool
  deriving DecidableEq, Repr

/-- A row of the admin_logs table as inserted by logAdminAction
(created_at is supplied by the store's default, not by the bot). -/
structure AuditEntry where
  action : String
  deal_id : Option String
  admin_telegram_id : Nat
  admin_username : String
  target_user : Option String
  details : String
  deriving DecidableEq, Repr

/-- JS String.prototype.toLowerCase as the bot applies it to Telegram
usernames and hex addresses, mapped over the characters. -/
def toLowerCase (s : String) : String :=
  ⟨s.data.map Char.toLower⟩

/-- The seller check used throughout index.js:
deal.seller_telegram_id === userId. -/
def isSellerOf (d : Deal) (userId : Nat) : Bool :=
  d.seller_telegram_id == userId

/-- The buyer check used throughout index.js:
deal.buyer_username.toLowerCase() === username.toLowerCase(). -/
def isBuyerOf (d : Deal) (username : String) : Bool :=
  toLowerCase d.buyer_username == toLowerCase username

/-- isBotmaster from index.js: BOTMASTER_IDS.includes(telegramId). -/
def isBotmaster (botmasters : List Nat) (telegramId : Nat) : Bool :=
  botmasters.contains telegramId

/-- isModerator from index.js: an active row of the moderators table. -/
def isModerator (mods : List Moderator) (telegramId : Nat) : Bool :=
  mods.any (fun m => m.telegram_id == telegramId && m.is_active)

/-- Administrative roles distinguished by isAnyAdmin. -/
inductive AdminRole
  | botmaster
  | moderator
  deriving DecidableEq, Repr

/-- isAnyAdmin from index.js: botmaster first, then moderator, else none. -/
def isAnyAdmin (botmasters : List Nat) (mods : List Moderator) (telegramId : Nat) :
    Option AdminRole :=
  if isBotmaster botmasters telegramId then some AdminRole.botmaster
  else if isModerator mods telegramId then some AdminRole.moderator
  else none

/-- The on-chain view of a deal returned by getOnChainStatus when the deal
exists on the ledger: its chain id and numeric status
(0=Pending, 1=Funded, 2=Completed, 3=Refunded, 4=Disputed, 5=Cancelled). -/
structure ChainInfo where
  chainId : Nat
  status : Nat
  deriving DecidableEq, Repr

/-- Outcome of awaiting an on-chain transaction through waitWithTimeout:
a timeout rejects the promise, so it lands in the same catch as a failure. -/
inductive TxResult
  | confirmed
  | failed
  deriving DecidableEq, Repr

/-- External side effects attempted by a command handler, in order. -/
inductive Effect
  | ledgerDispute (chainId : Nat)
  | ledgerRelease (chainId : Nat)
  | ledgerRefund (chainId : Nat)
  | dbUpdate (dealId : String) (newStatus : Status)
  deriving DecidableEq, Repr

/-- The disputer check of /canceldispute:
deal.disputed_by_telegram_id === userId, or
deal.disputed_by?.toLowerCase() === username?.toLowerCase(). -/
def disputerMatches (d : Deal) (userId : Nat) (username : String) : Bool :=
  d.disputed_by_telegram_id == some userId ||
    (match d.disputed_by with
     | some s => toLowerCase s == toLowerCase username
     | none => false)

/-- The persisted write of /canceldispute: an unconditional
update of status to funded, matched only by deal id (supabase
.update with .ilike on deal_id, no expected-status condition). -/
def cancelDisputeUpdate (d : Deal) : Deal :=
  { d with status := Status.funded }

/-- The /canceldispute handler (index.js lines 1005-1022): requires the deal
to be disputed, the caller to be the disputer or an admin, then writes
status funded. It calls logAdminAction nowhere, so the audit-entry list of a
successful run is empty. -/
def cancelDispute (botmasters : List Nat) (mods : List Moderator)
    (userId : Nat) (username : String) (deal : Deal) :
    Except String (Deal × List AuditEntry) :=
  if deal.status != Status.disputed then Except.error "Not disputed."
  else if !(disputerMatches deal userId username) &&
      (isAnyAdmin botmasters mods userId).isNone then
    Except.error "Only disputer or admin can cancel."
  else Except.ok (cancelDisputeUpdate deal, [])

/-- The persisted write of a successful /dispute: status disputed plus the
disputer identity, reason and timestamp, matched only by deal id. -/
def disputeUpdate (username : String) (userId : Nat) (reason : String)
    (now : Nat) (d : Deal) : Deal :=
  { d with
    status := Status.disputed
    disputed_by := some username
    disputed_by_telegram_id := some userId
    dispute_reason := some reason
    disputed_at := some now }

/-- Outcome of a /dispute run: the command result together with the ordered
list of external effects it attempted. -/
structure DisputeOutcome where
  result : Except String Deal
  effects : List Effect
  deriving Repr

/-- The /dispute handler (index.js lines 835-903). Guards: the caller must
be a party, the deal must be funded. Then the on-chain dispute call is
attempted (only when the ledger knows the deal and reports it Funded) with
any failure caught and ignored, and the database update runs afterwards
regardless of the on-chain outcome. chain models getOnChainStatus-style
lookup (none when the chain id is 0 or the query throws); txr is the
outcome of awaiting the dispute transaction; dbOk is the database update
outcome. -/
def disputeCmd (userId : Nat) (username : String) (reasonArg : Option String)
    (chain : Option ChainInfo) (txr : TxResult) (dbOk : Bool) (now : Nat)
    (deal : Deal) : DisputeOutcome :=
  if !(isSellerOf deal userId || isBuyerOf deal username) then
    ⟨Except.error "Not your deal.", []⟩
  else if deal.status != Status.funded then
    ⟨Except.error "Cannot dispute.", []⟩
  else
    let reason := reasonArg.getD "No reason provided"
    let ledgerEffects :=
      match chain with
      | some ci =>
        if ci.status == 1 then [Effect.ledgerDispute ci.chainId] else []
      | none => []
    let _ := txr
    let effects := ledgerEffects ++ [Effect.dbUpdate deal.deal_id Status.disputed]
    if dbOk then ⟨Except.ok (disputeUpdate username userId reason now deal), effects⟩
    else ⟨Except.error "Something went wrong. Please try again shortly.", effects⟩

/-- The two resolution decisions accepted by /resolve. -/
inductive Decision
  | release
  | refund
  deriving DecidableEq, Repr

/-- Local terminal status committed by /resolve for each decision. -/
def terminalOf : Decision → Status
  | Decision.release => Status.completed
  | Decision.refund => Status.refunded

/-- The decision string recorded in the resolve audit entry. -/
def decisionText : Decision → String
  | Decision.release => "release"
  | Decision.refund => "refund"

/-- The persisted write of a successful /resolve: the terminal status, the
resolver and a completion timestamp, matched only by deal id. -/
def resolveUpdate (decision : Decision) (now : Nat) (username : String)
    (d : Deal) : Deal :=
  { d with
    status := terminalOf decision
    resolved_by := some username
    completed_at := some now }

/-- The ledger call attempted by /resolve when the deal is known on-chain. -/
def resolveLedgerEffects (chain : Option ChainInfo) (decision : Decision) :
    List Effect :=
  match chain with
  | some ci =>
    [match decision with
     | Decision.release => Effect.ledgerRelease ci.chainId
     | Decision.refund => Effect.ledgerRefund ci.chainId]
  | none => []

/-- Outcome of a /resolve run: result, ordered effects, attempted audit
entries, and whether an on-chain failure message was surfaced to the
caller. -/
structure ResolveOutcome where
  result : Except String Deal
  effects : List Effect
  logs : List AuditEntry
  ledgerFailureSurfaced : Bool
  deriving Repr

/-- The /resolve handler (index.js lines 1399-1463). Guards: caller is an
admin, deal is disputed, a moderator must be the assigned moderator. When
the deal exists on-chain the release or refund transaction is sent and
awaited; a failure or timeout is caught, the caller is told
"On-chain transaction failed. Updating database anyway..." and the handler
continues. The database is then updated to the terminal status; only a
database error leaves the deal unchanged (and skips the audit entry). -/
def resolveCmd (botmasters : List Nat) (mods : List Moderator)
    (userId : Nat) (username : String) (decision : Decision)
    (chain : Option ChainInfo) (txr : TxResult) (dbOk : Bool) (now : Nat)
    (deal : Deal) : ResolveOutcome :=
  match isAnyAdmin botmasters mods userId with
  | none => ⟨Except.error "Admin only.", [], [], false⟩
  | some role =>
    if deal.status != Status.disputed then
      ⟨Except.error "Not disputed.", [], [], false⟩
    else if role == AdminRole.moderator &&
        deal.assigned_to_telegram_id != some userId then
      ⟨Except.error "Only assigned disputes.", [], [], false⟩
    else
      let surfaced := chain.isSome && txr == TxResult.failed
      let effects := resolveLedgerEffects chain decision ++
        [Effect.dbUpdate deal.deal_id (terminalOf decision)]
      if dbOk then
        ⟨Except.ok (resolveUpdate decision now username deal), effects,
         [⟨"resolve", some deal.deal_id, userId, username, none,
           decisionText decision⟩], surfaced⟩
      else
        ⟨Except.error "Failed to update database", effects, [], surfaced⟩

/-- The star-rating callback rate_DEAL_N (index.js lines 571-597): the
caller must be a party; the seller branch wins when both match. It rejects
when the caller's role already has a rating, else it stores the rating. -/
def rateCallback (userId : Nat) (username : String) (rating : Nat)
    (deal : Deal) : Except String Deal :=
  let isSeller := isSellerOf deal userId
  let isBuyer := isBuyerOf deal username
  if !isSeller && !isBuyer then Except.error "Not your deal."
  else if (if isSeller then deal.seller_rating else deal.buyer_rating).isSome then
    Except.error "Already reviewed."
  else if isSeller then Except.ok { deal with seller_rating := some rating }
  else Except.ok { deal with buyer_rating := some rating }

/-- The /review handler (index.js lines 1024-1051): the deal must be
completed or refunded and the caller a party; it rejects only when the
caller's role already has a review text, and otherwise writes both the
review text (defaulting to "No comment") and the rating. -/
def reviewCmd (userId : Nat) (username : String) (rating : Nat)
    (comment : Option String) (deal : Deal) : Except String Deal :=
  if deal.status != Status.completed && deal.status != Status.refunded then
    Except.error "Can only review finished deals."
  else
    let isSeller := isSellerOf deal userId
    let isBuyer := isBuyerOf deal username
    if !isSeller && !isBuyer then Except.error "Not your deal."
    else if (if isSeller then deal.seller_review else deal.buyer_review).isSome then
      Except.error "Already reviewed."
    else if isSeller then
      Except.ok { deal with
        seller_review := some (comment.getD "No comment")
        seller_rating := some rating }
    else
      Except.ok { deal with
        buyer_review := some (comment.getD "No comment")
        buyer_rating := some rating }

/-- The /new handler (index.js lines 632-673): rejects amounts outside
1..500 USDC, a buyer username equal to the seller's (case-insensitively),
and a seller without a registered wallet; otherwise inserts a fresh
pending_deposit deal (buyer_telegram_id is inserted as 0). -/
def newCmd (senderId : Nat) (senderUsername : String) (buyerUsername : String)
    (amount : ℚ) (description : String) (sellerWallet : Option String)
    (dealId : String) (dbOk : Bool) : Except String Deal :=
  if amount < 1 || amount > 500 then Except.error "Amount: 1-500 USDC"
  else if toLowerCase buyerUsername == toLowerCase senderUsername then
    Except.error "Cannot deal with yourself"
  else if sellerWallet.isNone then
    Except.error "Register wallet first: /wallet 0xYourAddress"
  else if !dbOk then Except.error "Something went wrong. Please try again shortly."
  else Except.ok
    { deal_id := dealId
      seller_telegram_id := senderId
      seller_username := senderUsername
      buyer_telegram_id := 0
      buyer_username := buyerUsername
      amount := amount
      description := description
      status := Status.pending_deposit }

/-- The wallet-ownership lookup of /wallet: the users row whose
wallet_address equals the (lowercased) requested address. -/
def findByWallet (users : List UserRow) (w : String) : Option UserRow :=
  users.find? (fun u => u.wallet_address == w)

/-- supabase upsert with onConflict telegram_id: replace the row carrying
the caller's telegram_id, or append a fresh row. -/
def upsertUser (users : List UserRow) (row : UserRow) : List UserRow :=
  if users.any (fun u => u.telegram_id == row.telegram_id) then
    users.map (fun u => if u.telegram_id == row.telegram_id then row else u)
  else users ++ [row]

/-- The /wallet handler (index.js lines 605-630): the address is lowercased;
if it is already registered to a different telegram id the request is
rejected with no write, otherwise the caller's users row is upserted. -/
def walletCmd (userId : Nat) (username : String) (addrRaw : String)
    (users : List UserRow) : Except String (List UserRow) :=
  let walletAddress := toLowerCase addrRaw
  match findByWallet users walletAddress with
  | some existing =>
    if existing.telegram_id != userId then
      Except.error "This wallet is already registered to another user."
    else Except.ok (upsertUser users ⟨userId, username, walletAddress⟩)
  | none => Except.ok (upsertUser users ⟨userId, username, walletAddress⟩)

/-- One deal's treatment by the funded-detection pass of pollDeals
(index.js lines 1498-1525): the store query selects deals with status
pending_deposit and a non-null contract_deal_id; for a selected deal the
ledger is queried (none models chain id 0 or a per-deal error, both
skipped) and the deal becomes funded only when the ledger reports status 1.
Every other deal is left untouched. -/
def fundedDetectStep (ledger : String → Option ChainInfo) (now : Nat)
    (d : Deal) : Deal :=
  if d.status == Status.pending_deposit && d.contract_deal_id.isSome then
    match ledger d.deal_id with
    | some ci =>
      if ci.status == 1 then
        { d with status := Status.funded, funded_at := some now }
      else d
    | none => d
  else d

/-- The funded-detection pass of pollDeals over the whole store: deals are
processed independently, one after another. -/
def fundedDetectionPass (ledger : String → Option ChainInfo) (now : Nat)
    (store : List Deal) : List Deal :=
  store.map (fundedDetectStep ledger now)

/-- The /assign handler (index.js lines 1295-1330): botmaster only, deal
must be disputed, the moderator's users row must exist; on success the
single assignment is overwritten and one audit entry is written. -/
def assignCmd (botmasters : List Nat) (userId : Nat) (username : String)
    (modUsername : String) (modUserId : Option Nat) (now : Nat) (dbOk : Bool)
    (deal : Deal) : Except String (Deal × List AuditEntry) :=
  if !(isBotmaster botmasters userId) then Except.error "Botmaster only."
  else if deal.status != Status.disputed then Except.error "Not disputed."
  else
    match modUserId with
    | none => Except.error "Moderator not found."
    | some mid =>
      if dbOk then
        Except.ok
          ({ deal with
             assigned_to_telegram_id := some mid
             assigned_to_username := some modUsername
             assigned_at := some now
             assigned_by := some username },
           [⟨"assign", some deal.deal_id, userId, username,
             some modUsername, "Assigned"⟩])
      else Except.error "Something went wrong. Please try again shortly."

/-- The /unassign handler (index.js lines 1332-1348): botmaster only; the
assignment fields are cleared (the update result is not even checked) and
one audit entry is written naming the previously assigned moderator. -/
def unassignCmd (botmasters : List Nat) (userId : Nat) (username : String)
    (deal : Deal) : Except String (Deal × List AuditEntry) :=
  if !(isBotmaster botmasters userId) then Except.error "Botmaster only."
  else
    Except.ok
      ({ deal with
         assigned_to_telegram_id := none
         assigned_to_username := none },
       [⟨"unassign", some deal.deal_id, userId, username,
         deal.assigned_to_username, "Unassigned"⟩])

/-- Result of the moderators-table insert attempted by /addmod. -/
inductive InsertResult
  | inserted
  | duplicate
  | dbError
  deriving DecidableEq, Repr

/-- The /addmod handler (index.js lines 1203-1235): botmaster only, the
target must have a users row; a duplicate insert falls back to
re-activating the row; on success one add_mod audit entry is written. -/
def addmodCmd (botmasters : List Nat) (userId : Nat) (username : String)
    (modUsername : String) (modUserId : Option Nat)
    (insertRes : InsertResult) (updOk : Bool) : Except String (List AuditEntry) :=
  if !(isBotmaster botmasters userId) then Except.error "Botmaster only."
  else
    match modUserId with
    | none => Except.error "Moderator candidate not found."
    | some _ =>
      match insertRes with
      | InsertResult.inserted =>
        Except.ok [⟨"add_mod", none, userId, username, some modUsername,
          "Added moderator"⟩]
      | InsertResult.duplicate =>
        if updOk then
          Except.ok [⟨"add_mod", none, userId, username, some modUsername,
            "Added moderator"⟩]
        else Except.error "Something went wrong. Please try again shortly."
      | InsertResult.dbError =>
        Except.error "Something went wrong. Please try again shortly."

/-- The /removemod handler (index.js lines 1237-1249): botmaster only; the
grant row is deactivated (never deleted) and one remove_mod audit entry is
written. -/
def removemodCmd (botmasters : List Nat) (userId : Nat) (username : String)
    (modUsername : String) (dbOk : Bool) : Except String (List AuditEntry) :=
  if !(isBotmaster botmasters userId) then Except.error "Botmaster only."
  else if dbOk then
    Except.ok [⟨"remove_mod", none, userId, username, some modUsername,
      "Removed moderator"⟩]
  else Except.error "Something went wrong. Please try again shortly."

/-- The /msg handler (index.js lines 1352-1381): admin only, a moderator
only on an assigned dispute; the target party must resolve to a telegram
id; the audit entry is written only when the direct message was sent. -/
def msgCmd (botmasters : List Nat) (mods : List Moderator) (userId : Nat)
    (username : String) (target : String) (message : String)
    (targetId : Option Nat) (sendOk : Bool) (deal : Deal) :
    Except String (List AuditEntry) :=
  match isAnyAdmin botmasters mods userId with
  | none => Except.error "Admin only."
  | some role =>
    if role == AdminRole.moderator &&
        deal.assigned_to_telegram_id != some userId then
      Except.error "Only assigned disputes."
    else
      match targetId with
      | none => Except.error "Cannot find target."
      | some _ =>
        if sendOk then
          Except.ok [⟨"msg", some deal.deal_id, userId, username,
            some target, message⟩]
        else Except.error "Something went wrong. Please try again shortly."

/-- The /broadcast handler (index.js lines 1383-1397): admin only;
notification of the parties is best-effort and one broadcast audit entry is
written. -/
def broadcastCmd (botmasters : List Nat) (mods : List Moderator)
    (userId : Nat) (username : String) (message : String) (deal : Deal) :
    Except String (List AuditEntry) :=
  match isAnyAdmin botmasters mods userId with
  | none => Except.error "Admin only."
  | some _ =>
    Except.ok [⟨"broadcast", some deal.deal_id, userId, username,
      some "both", message⟩]

/-- A funded sample deal used to evaluate the dispute handler. -/
def c5Deal : Deal :=
  { deal_id := "DP-C5AA"
    seller_telegram_id := 7
    seller_username := "sel"
    buyer_username := "buy"
    amount := 50
    status := Status.funded }

/-- A disputed sample deal whose disputer is user 5 ("dora"). -/
def c6Deal : Deal :=
  { deal_id := "DP-C6AA"
    seller_telegram_id := 5
    seller_username := "dora"
    buyer_username := "bob"
    amount := 40
    status := Status.disputed
    disputed_by := some "dora"
    disputed_by_telegram_id := some 5
    dispute_reason := some "no delivery" }

/-- An already-Funded, on-chain-anchored sample deal for the reconciler. -/
def c8Deal : Deal :=
  { deal_id := "DP-C8AA"
    seller_telegram_id := 7
    seller_username := "sel"
    buyer_username := "buy"
    amount := 25
    status := Status.funded
    contract_deal_id := some 3
    funded_at := some 100 }

/-- A freshly completed sample deal with no rating or review yet. -/
def c4Deal : Deal :=
  { deal_id := "DP-C4AA"
    seller_telegram_id := 7
    seller_username := "al"
    buyer_username := "bea"
    amount := 30
    status := Status.completed }

/-- A disputed sample deal whose disputer is user 7, not the admin 99. -/
def c3Deal : Deal :=
  { deal_id := "DP-C3AA"
    seller_telegram_id := 7
    seller_username := "sam"
    buyer_username := "bob"
    amount := 35
    status := Status.disputed
    disputed_by := some "sam"
    disputed_by_telegram_id := some 7
    assigned_to_username := some "mia" }

/-- A disputed, on-chain-anchored sample deal for the resolve handler. -/
def c1Deal : Deal :=
  { deal_id := "DP-C1AA"
    seller_telegram_id := 7
    seller_username := "sel"
    buyer_username := "buy"
    amount := 60
    status := Status.disputed
    contract_deal_id := some 5
    disputed_by := some "buy"
    disputed_by_telegram_id := some 8
    dispute_reason := some "no delivery" }

/-- A completed sample deal, the state a concurrent writer may have
persisted between a handler's read and its write. -/
def c2Deal : Deal :=
  { deal_id := "DP-C2AA"
    seller_telegram_id := 7
    seller_username := "sel"
    buyer_username := "buy"
    amount := 45
    status := Status.completed }

/-- The at-most-one-owner invariant of the users table: any two rows with
the same wallet address carry the same telegram id. -/
def atMostOneOwner (users : List UserRow) : Prop :=
  ∀ u ∈ users, ∀ v ∈ users, u.wallet_address = v.wallet_address →
    u.telegram_id = v.telegram_id

instance : DecidablePred atMostOneOwner := by
  intro users
  unfold atMostOneOwner
  infer_instance

/-- C5: a dispute can open only on a Funded deal and only by a party; any
other status or a non-party caller is rejected with no mutation and no
effect; a successful dispute stores the reason and disputer identity and
transitions the deal to Disputed. -/
theorem claim_C5 (userId : Nat) (username : String) (reasonArg : Option String)
    (chain : Option ChainInfo) (txr : TxResult) (dbOk : Bool) (now : Nat)
    (deal : Deal) :
    (∀ d', (disputeCmd userId username reasonArg chain txr dbOk now deal).result =
        Except.ok d' →
      (isSellerOf deal userId = true ∨ isBuyerOf deal username = true) ∧
      deal.status = Status.funded ∧
      d' = disputeUpdate username userId (reasonArg.getD "No reason provided")
            now deal ∧
      d'.status = Status.disputed ∧
      d'.dispute_reason = some (reasonArg.getD "No reason provided") ∧
      d'.disputed_by = some username ∧
      d'.disputed_by_telegram_id = some userId) ∧
    (deal.status ≠ Status.funded →
      ∃ m, disputeCmd userId username reasonArg chain txr dbOk now deal =
        ⟨Except.error m, []⟩) ∧
    (isSellerOf deal userId = false → isBuyerOf deal username = false →
      disputeCmd userId username reasonArg chain txr dbOk now deal =
        ⟨Except.error "Not your deal.", []⟩) := by
  refine ⟨?_, ?_, ?_⟩
  · intro d' h
    cases hp : (isSellerOf deal userId || isBuyerOf deal username) with
    | false => simp [disputeCmd, hp] at h
    | true =>
      by_cases hs : deal.status = Status.funded
      · cases dbOk with
        | false => simp [disputeCmd, hp, hs] at h
        | true =>
          simp only [disputeCmd, hp, hs, Bool.not_true, Bool.false_eq_true,
            if_false, bne_self_eq_false, Bool.not_false, if_true,
            Except.ok.injEq] at h
          subst h
          exact ⟨Bool.or_eq_true_iff.mp hp, hs, rfl, rfl, rfl, rfl, rfl⟩
      · simp [disputeCmd, hp, hs] at h
  · intro hs
    cases hp : (isSellerOf deal userId || isBuyerOf deal username) with
    | false => exact ⟨"Not your deal.", by simp [disputeCmd, hp]⟩
    | true => exact ⟨"Cannot dispute.", by simp [disputeCmd, hp, hs]⟩
  · intro h1 h2
    simp [disputeCmd, h1, h2]

/-- C5 witness: the seller of the funded sample deal opens a dispute and
the deal was indeed funded. -/
theorem claim_C5_witness : c5Deal.status = Status.funded :=
  ((claim_C5 7 "sam" (some "late") none TxResult.confirmed true 11 c5Deal).1
    (disputeUpdate "sam" 7 "late" 11 c5Deal) rfl).2.1

/-- C6: cancel-dispute is rejected for a caller who is neither the disputer
nor an admin; the original disputer on a Disputed deal succeeds, returning
the status to Funded; and any second cancel attempt on the now-Funded deal
is rejected. -/
theorem claim_C6 (botmasters : List Nat) (mods : List Moderator)
    (disputerId otherId : Nat) (disputerName otherName : String) (deal : Deal)
    (hst : deal.status = Status.disputed)
    (hdisp : disputerMatches deal disputerId disputerName = true)
    (hother : disputerMatches deal otherId otherName = false)
    (hnadm : isAnyAdmin botmasters mods otherId = none) :
    cancelDispute botmasters mods otherId otherName deal =
      Except.error "Only disputer or admin can cancel." ∧
    cancelDispute botmasters mods disputerId disputerName deal =
      Except.ok (cancelDisputeUpdate deal, []) ∧
    (cancelDisputeUpdate deal).status = Status.funded ∧
    (∀ uid un, ∃ m,
      cancelDispute botmasters mods uid un (cancelDisputeUpdate deal) =
        Except.error m) := by
  refine ⟨?_, ?_, rfl, ?_⟩
  · simp [cancelDispute, hst, hother, hnadm]
  · simp [cancelDispute, hst, hdisp]
  · intro uid un
    exact ⟨"Not disputed.", by simp [cancelDispute, cancelDisputeUpdate]⟩

/-- C6 witness: cancelling the dispute on the sample deal brings it back to
Funded. -/
theorem claim_C6_witness : (cancelDisputeUpdate c6Deal).status = Status.funded :=
  (claim_C6 [] [] 5 9 "dora" "eve" c6Deal rfl (by decide) (by decide) rfl).2.2.1

/-- C7: when a party disputes a funded deal that the ledger knows and
reports Funded, the on-chain dispute-marking call comes before the local
database write in the effect order, and the local transition (with reason
and disputer recorded) happens for every transaction outcome, including
failure. -/
theorem claim_C7 (userId : Nat) (username : String) (reasonArg : Option String)
    (ci : ChainInfo) (now : Nat) (deal : Deal)
    (hp : (isSellerOf deal userId || isBuyerOf deal username) = true)
    (hst : deal.status = Status.funded)
    (hci : ci.status = 1) :
    (∀ txr,
      (disputeCmd userId username reasonArg (some ci) txr true now deal).effects =
        [Effect.ledgerDispute ci.chainId,
         Effect.dbUpdate deal.deal_id Status.disputed]) ∧
    (∀ txr,
      (disputeCmd userId username reasonArg (some ci) txr true now deal).result =
        Except.ok (disputeUpdate username userId
          (reasonArg.getD "No reason provided") now deal)) ∧
    (disputeUpdate username userId (reasonArg.getD "No reason provided")
        now deal).status = Status.disputed ∧
    (disputeUpdate username userId (reasonArg.getD "No reason provided")
        now deal).dispute_reason =
      some (reasonArg.getD "No reason provided") := by
  refine ⟨?_, ?_, rfl, rfl⟩
  · intro txr
    simp [disputeCmd, hp, hst, hci]
  · intro txr
    simp [disputeCmd, hp, hst, hci]

/-- C7 witness: a failed on-chain dispute transaction still yields the local
Disputed transition on the funded sample deal. -/
theorem claim_C7_witness :
    (disputeCmd 7 "sam" none (some ⟨3, 1⟩) TxResult.failed true 11 c5Deal).result =
      Except.ok (disputeUpdate "sam" 7 "No reason provided" 11 c5Deal) :=
  (claim_C7 7 "sam" none ⟨3, 1⟩ 11 c5Deal rfl rfl rfl).2.1 TxResult.failed

/-- C8: the reconciler's funded-detection pass leaves every deal that is
already Funded exactly as it is (and raises no error: the step is total and
per-deal ledger failures are skipped). -/
theorem claim_C8 (ledger : String → Option ChainInfo) (now : Nat)
    (store : List Deal) (i : Nat) (d : Deal)
    (h1 : store[i]? = some d) (h2 : d.status = Status.funded) :
    (fundedDetectionPass ledger now store)[i]? = some d := by
  have hstep : fundedDetectStep ledger now d = d := by
    simp [fundedDetectStep, h2]
  simp [fundedDetectionPass, List.getElem?_map, h1, hstep]

/-- C8 witness: even with a ledger that reports every deal as Funded, the
pass returns the already-Funded sample deal unchanged. -/
theorem claim_C8_witness :
    (fundedDetectionPass (fun _ => some ⟨3, 1⟩) 200 [c8Deal])[0]? = some c8Deal :=
  claim_C8 (fun _ => some ⟨3, 1⟩) 200 [c8Deal] 0 c8Deal rfl rfl

/-- C9: deal creation succeeds only with an amount between 1 and 500 USDC
inclusive and a buyer username different (case-insensitively) from the
seller's, and is rejected whenever the amount is out of range or the buyer
equals the seller. -/
theorem claim_C9 (senderId : Nat) (senderUsername buyerUsername : String)
    (amount : ℚ) (description : String) (sellerWallet : Option String)
    (dealId : String) (dbOk : Bool) :
    (∀ d, newCmd senderId senderUsername buyerUsername amount description
        sellerWallet dealId dbOk = Except.ok d →
      1 ≤ amount ∧ amount ≤ 500 ∧
      toLowerCase buyerUsername ≠ toLowerCase senderUsername ∧
      d.amount = amount ∧ d.seller_username = senderUsername ∧
      d.buyer_username = buyerUsername ∧ d.seller_telegram_id = senderId ∧
      d.status = Status.pending_deposit) ∧
    ((amount < 1 ∨ 500 < amount ∨
        toLowerCase buyerUsername = toLowerCase senderUsername) →
      ∃ m, newCmd senderId senderUsername buyerUsername amount description
        sellerWallet dealId dbOk = Except.error m) := by
  constructor
  · intro d h
    by_cases h1 : amount < 1
    · simp [newCmd, h1] at h
    · by_cases h2 : amount > 500
      · simp [newCmd, h2] at h
      · by_cases h3 : toLowerCase buyerUsername = toLowerCase senderUsername
        · simp [newCmd, h1, h2, h3] at h
        · cases sellerWallet with
          | none => simp [newCmd, h1, h2, h3] at h
          | some w =>
            cases dbOk with
            | false => simp [newCmd, h1, h2, h3] at h
            | true =>
              simp only [newCmd, h1, h2, h3, decide_eq_true_eq, decide_False,
                Bool.or_self, Bool.false_or, decide_eq_false_iff_not,
                if_false, if_true, Option.isNone_some, Bool.not_true,
                Bool.false_eq_true, beq_iff_eq, Except.ok.injEq,
                decide_eq_false h1, decide_eq_false h2] at h
              subst h
              exact ⟨le_of_not_lt h1, le_of_not_lt h2, h3, rfl, rfl, rfl,
                rfl, rfl⟩
  · intro hbad
    rcases hbad with h1 | h2 | h3
    · exact ⟨"Amount: 1-500 USDC", by simp [newCmd, h1]⟩
    · exact ⟨"Amount: 1-500 USDC", by simp [newCmd, h2]⟩
    · by_cases h1 : amount < 1
      · exact ⟨"Amount: 1-500 USDC", by simp [newCmd, h1]⟩
      · by_cases h2 : amount > 500
        · exact ⟨"Amount: 1-500 USDC", by simp [newCmd, h2]⟩
        · exact ⟨"Cannot deal with yourself", by simp [newCmd, h1, h2, h3]⟩

/-- C9 witness: a concrete in-range creation succeeds and its deal indeed
carries the checked bounds and distinct parties. -/
theorem claim_C9_witness :
    1 ≤ (50 : ℚ) ∧ (50 : ℚ) ≤ 500 ∧
    toLowerCase "Bea" ≠ toLowerCase "Al" ∧
    (({ deal_id := "DP-C9AA", seller_telegram_id := 7, seller_username := "Al",
        buyer_telegram_id := 0, buyer_username := "Bea", amount := 50,
        description := "logo", status := Status.pending_deposit } : Deal).amount
      = 50) := by
  have h := (claim_C9 7 "Al" "Bea" 50 "logo" (some "0xab") "DP-C9AA" true).1
    { deal_id := "DP-C9AA", seller_telegram_id := 7, seller_username := "Al",
      buyer_telegram_id := 0, buyer_username := "Bea", amount := 50,
      description := "logo", status := Status.pending_deposit } rfl
  exact ⟨h.1, h.2.1, h.2.2.1, h.2.2.2.1⟩

/-- Membership after an upsert comes from the new row or the old store. -/
theorem mem_upsertUser {users : List UserRow} {row u : UserRow}
    (h : u ∈ upsertUser users row) : u = row ∨ u ∈ users := by
  unfold upsertUser at h
  by_cases hex : users.any (fun v => v.telegram_id == row.telegram_id)
  · rw [if_pos hex] at h
    rcases List.mem_map.mp h with ⟨v, hv, hfv⟩
    by_cases hid : v.telegram_id == row.telegram_id
    · left
      rw [if_pos hid] at hfv
      exact hfv.symm
    · right
      rw [if_neg hid] at hfv
      exact hfv ▸ hv
  · rw [if_neg hex] at h
    rcases List.mem_append.mp h with hv | hv
    · exact Or.inr hv
    · exact Or.inl (List.mem_singleton.mp hv)

/-- An upsert whose row owns a wallet that no differently-identified old row
owns preserves the at-most-one-owner invariant. -/
theorem upsertUser_preserves {users : List UserRow} {row : UserRow}
    (hinv : atMostOneOwner users)
    (hw : ∀ u ∈ users, u.wallet_address = row.wallet_address →
      u.telegram_id = row.telegram_id) :
    atMostOneOwner (upsertUser users row) := by
  intro u hu v hv heq
  rcases mem_upsertUser hu with rfl | hu' <;>
    rcases mem_upsertUser hv with rfl | hv'
  · rfl
  · exact (hw v hv' (heq.symm)).symm
  · exact hw u hu' heq
  · exact hinv u hu' v hv' heq

/-- C10: under the at-most-one-owner invariant, /wallet (a) preserves the
invariant on every successful run, (b) rejects without mutation any request
naming an address already registered to a different telegram id, and (c)
accepts a fresh address or the caller's own address, upserting the caller's
row. -/
theorem findByWallet_some {users : List UserRow} {w : String} {u0 : UserRow}
    (h : findByWallet users w = some u0) :
    u0 ∈ users ∧ u0.wallet_address = w := by
  unfold findByWallet at h
  refine ⟨List.mem_of_find?_eq_some h, ?_⟩
  simpa using List.find?_some h

theorem findByWallet_none {users : List UserRow} {w : String}
    (h : findByWallet users w = none) :
    ∀ u ∈ users, u.wallet_address ≠ w := by
  unfold findByWallet at h
  intro u hu
  simpa using List.find?_eq_none.mp h u hu

/-- C10: under the at-most-one-owner invariant, /wallet (a) preserves the
invariant on every successful run, (b) rejects without mutation any request
naming an address already registered to a different telegram id, and (c)
accepts a fresh address or the caller's own address, upserting the caller's
row. -/
theorem claim_C10 (userId : Nat) (username : String) (addrRaw : String)
    (users : List UserRow) (hinv : atMostOneOwner users) :
    (∀ users', walletCmd userId username addrRaw users = Except.ok users' →
      atMostOneOwner users') ∧
    ((∃ u ∈ users, u.wallet_address = toLowerCase addrRaw ∧
        u.telegram_id ≠ userId) →
      walletCmd userId username addrRaw users =
        Except.error "This wallet is already registered to another user.") ∧
    ((∀ u ∈ users, u.wallet_address ≠ toLowerCase addrRaw ∨
        u.telegram_id = userId) →
      walletCmd userId username addrRaw users =
        Except.ok (upsertUser users ⟨userId, username, toLowerCase addrRaw⟩)) := by
  refine ⟨?_, ?_, ?_⟩
  · intro users' h
    cases hfind : findByWallet users (toLowerCase addrRaw) with
    | none =>
      simp only [walletCmd, hfind, Except.ok.injEq] at h
      subst h
      apply upsertUser_preserves hinv
      intro u hu hweq
      exact absurd hweq (findByWallet_none hfind u hu)
    | some u0 =>
      obtain ⟨hu0mem, hu0w⟩ := findByWallet_some hfind
      by_cases hid : u0.telegram_id = userId
      · simp only [walletCmd, hfind, hid, bne_self_eq_false,
          Bool.false_eq_true, if_false, Except.ok.injEq] at h
        subst h
        apply upsertUser_preserves hinv
        intro u hu hweq
        exact (hinv u hu u0 hu0mem (hweq.trans hu0w.symm)).trans hid
      · simp [walletCmd, hfind, bne_iff_ne, hid] at h
  · rintro ⟨u, hu, hw, hid⟩
    cases hfind : findByWallet users (toLowerCase addrRaw) with
    | none => exact absurd hw (findByWallet_none hfind u hu)
    | some u0 =>
      obtain ⟨hu0mem, hu0w⟩ := findByWallet_some hfind
      have hsame : u.telegram_id = u0.telegram_id :=
        hinv u hu u0 hu0mem (hw.trans hu0w.symm)
      have hne : u0.telegram_id ≠ userId := fun hc => hid (hsame.trans hc)
      simp [walletCmd, hfind, bne_iff_ne, hne]
  · intro hfree
    cases hfind : findByWallet users (toLowerCase addrRaw) with
    | none => simp [walletCmd, hfind]
    | some u0 =>
      obtain ⟨hu0mem, hu0w⟩ := findByWallet_some hfind
      rcases hfree u0 hu0mem with hbad | hok
      · exact absurd hu0w hbad
      · simp [walletCmd, hfind, hok]

/-- C4 counterexample: the seller rates the completed sample deal 5 stars
through the rating button, then issues /review with rating 1; the second
operation is accepted (only the review text is checked) and changes the
already-recorded rating from 5 to 1. -/
theorem claim_C4_counterexample :
    rateCallback 7 "al" 5 c4Deal =
      Except.ok { c4Deal with seller_rating := some 5 } ∧
    ({ c4Deal with seller_rating := some 5 } : Deal).seller_rating =
      some 5 ∧
    reviewCmd 7 "al" 1 none { c4Deal with seller_rating := some 5 } =
      Except.ok { c4Deal with
        seller_rating := some 1
        seller_review := some "No comment" } ∧
    ({ c4Deal with
        seller_rating := some 1
        seller_review := some "No comment" } : Deal).seller_rating =
      some 1 ∧
    (some 1 : Option Nat) ≠ some 5 :=
  ⟨rfl, rfl, rfl, rfl, by decide⟩

/-- C4 amended: per role the review text is write-once and the rating
button never overwrites an existing rating; once both the rating and review
of a role are recorded neither operation changes them; but /review checks
only the review text, so it overwrites the role's rating whenever that
role's review is still unset. -/
theorem claim_C4_write_once (userId : Nat) (username : String) (rating : Nat)
    (comment : Option String) (deal : Deal) :
    (isSellerOf deal userId = true → deal.seller_rating ≠ none →
      rateCallback userId username rating deal =
        Except.error "Already reviewed.") ∧
    (isSellerOf deal userId = false → isBuyerOf deal username = true →
      deal.buyer_rating ≠ none →
      rateCallback userId username rating deal =
        Except.error "Already reviewed.") ∧
    (isSellerOf deal userId = true → deal.seller_review ≠ none →
      (deal.status = Status.completed ∨ deal.status = Status.refunded) →
      reviewCmd userId username rating comment deal =
        Except.error "Already reviewed.") ∧
    (isSellerOf deal userId = false → isBuyerOf deal username = true →
      deal.buyer_review ≠ none →
      (deal.status = Status.completed ∨ deal.status = Status.refunded) →
      reviewCmd userId username rating comment deal =
        Except.error "Already reviewed.") ∧
    (isSellerOf deal userId = true → deal.seller_review = none →
      (deal.status = Status.completed ∨ deal.status = Status.refunded) →
      reviewCmd userId username rating comment deal =
        Except.ok { deal with
          seller_review := some (comment.getD "No comment")
          seller_rating := some rating }) := by
  refine ⟨?_, ?_, ?_, ?_, ?_⟩
  · intro hs hr
    have hr' : deal.seller_rating.isSome = true :=
      Option.isSome_iff_ne_none.mpr hr
    simp [rateCallback, hs, hr']
  · intro hs hb hr
    have hr' : deal.buyer_rating.isSome = true :=
      Option.isSome_iff_ne_none.mpr hr
    simp [rateCallback, hs, hb, hr']
  · intro hs hr hst
    have hr' : deal.seller_review.isSome = true :=
      Option.isSome_iff_ne_none.mpr hr
    rcases hst with hst | hst <;> simp [reviewCmd, hs, hr', hst]
  · intro hs hb hr hst
    have hr' : deal.buyer_review.isSome = true :=
      Option.isSome_iff_ne_none.mpr hr
    rcases hst with hst | hst <;> simp [reviewCmd, hs, hb, hr', hst]
  · intro hs hr hst
    rcases hst with hst | hst <;> simp [reviewCmd, hs, hr, hst]

/-- C4 witness for the amended theorem: the rating button refuses to touch
a seller rating that is already recorded. -/
theorem claim_C4_witness :
    rateCallback 7 "al" 3 { c4Deal with seller_rating := some 5 } =
      Except.error "Already reviewed." :=
  (claim_C4_write_once 7 "al" 3 none
    { c4Deal with seller_rating := some 5 }).1 rfl (by decide)

/-- C3 counterexample: botmaster 99 (not the disputer) cancels the dispute
on the sample deal; the action succeeds but writes zero audit-log entries,
not exactly one. -/
theorem claim_C3_counterexample :
    isAnyAdmin [99] [] 99 = some AdminRole.botmaster ∧
    disputerMatches c3Deal 99 "boss" = false ∧
    cancelDispute [99] [] 99 "boss" c3Deal =
      Except.ok (cancelDisputeUpdate c3Deal, ([] : List AuditEntry)) :=
  ⟨rfl, by decide, rfl⟩

/-- C3 amended: assign, unassign, resolve, moderator grant (addmod),
moderator revoke (removemod), direct party messaging (msg) and broadcast
each write exactly one audit entry on success, carrying the action kind,
acting admin, optional deal, optional target and detail text (the store
adds the timestamp); dispute cancellation, including by an admin, writes no
audit entry at all. -/
theorem claim_C3_admin_logs :
    (∀ botmasters userId username modUsername modUserId now dbOk deal d' logs,
      assignCmd botmasters userId username modUsername modUserId now dbOk
          deal = Except.ok (d', logs) →
      logs = [⟨"assign", some deal.deal_id, userId, username,
        some modUsername, "Assigned"⟩]) ∧
    (∀ botmasters userId username deal d' logs,
      unassignCmd botmasters userId username deal = Except.ok (d', logs) →
      logs = [⟨"unassign", some deal.deal_id, userId, username,
        deal.assigned_to_username, "Unassigned"⟩]) ∧
    (∀ botmasters mods userId username decision chain txr dbOk now deal d',
      (resolveCmd botmasters mods userId username decision chain txr dbOk now
          deal).result = Except.ok d' →
      (resolveCmd botmasters mods userId username decision chain txr dbOk now
          deal).logs = [⟨"resolve", some deal.deal_id, userId, username,
        none, decisionText decision⟩]) ∧
    (∀ botmasters userId username modUsername modUserId insertRes updOk logs,
      addmodCmd botmasters userId username modUsername modUserId insertRes
          updOk = Except.ok logs →
      logs = [⟨"add_mod", none, userId, username, some modUsername,
        "Added moderator"⟩]) ∧
    (∀ botmasters userId username modUsername dbOk logs,
      removemodCmd botmasters userId username modUsername dbOk =
          Except.ok logs →
      logs = [⟨"remove_mod", none, userId, username, some modUsername,
        "Removed moderator"⟩]) ∧
    (∀ botmasters mods userId username target message targetId sendOk deal
        logs,
      msgCmd botmasters mods userId username target message targetId sendOk
          deal = Except.ok logs →
      logs = [⟨"msg", some deal.deal_id, userId, username, some target,
        message⟩]) ∧
    (∀ botmasters mods userId username message deal logs,
      broadcastCmd botmasters mods userId username message deal =
          Except.ok logs →
      logs = [⟨"broadcast", some deal.deal_id, userId, username, some "both",
        message⟩]) ∧
    (∀ botmasters mods userId username deal r,
      cancelDispute botmasters mods userId username deal = Except.ok r →
      r.2 = []) := by
  refine ⟨?_, ?_, ?_, ?_, ?_, ?_, ?_, ?_⟩
  · intro botmasters userId username modUsername modUserId now dbOk deal
      d' logs h
    cases hb : isBotmaster botmasters userId with
    | false => simp [assignCmd, hb] at h
    | true =>
      by_cases hst : deal.status = Status.disputed
      · cases modUserId with
        | none => simp [assignCmd, hb, hst] at h
        | some mid =>
          cases dbOk with
          | false => simp [assignCmd, hb, hst] at h
          | true =>
            simp only [assignCmd, hb, hst, bne_self_eq_false,
              Bool.not_true, Bool.false_eq_true, if_false, if_true,
              Bool.not_false, Except.ok.injEq, Prod.mk.injEq] at h
            exact h.2.symm
      · simp [assignCmd, hb, hst] at h
  · intro botmasters userId username deal d' logs h
    cases hb : isBotmaster botmasters userId with
    | false => simp [unassignCmd, hb] at h
    | true =>
      simp only [unassignCmd, hb, Bool.not_true, Bool.false_eq_true,
        if_false, Except.ok.injEq, Prod.mk.injEq] at h
      exact h.2.symm
  · intro botmasters mods userId username decision chain txr dbOk now deal
      d' h
    cases hadm : isAnyAdmin botmasters mods userId with
    | none => simp [resolveCmd, hadm] at h
    | some role =>
      by_cases hst : deal.status = Status.disputed
      · cases hg : (role == AdminRole.moderator &&
            deal.assigned_to_telegram_id != some userId) with
        | true => simp [resolveCmd, hadm, hst, hg] at h
        | false =>
          cases dbOk with
          | false => simp [resolveCmd, hadm, hst, hg] at h
          | true => simp [resolveCmd, hadm, hst, hg]
      · simp [resolveCmd, hadm, hst] at h
  · intro botmasters userId username modUsername modUserId insertRes updOk
      logs h
    cases hb : isBotmaster botmasters userId with
    | false => simp [addmodCmd, hb] at h
    | true =>
      cases modUserId with
      | none => simp [addmodCmd, hb] at h
      | some mid =>
        cases insertRes with
        | inserted =>
          simp only [addmodCmd, hb, Bool.not_true, Bool.false_eq_true,
            if_false, Except.ok.injEq] at h
          exact h.symm
        | duplicate =>
          cases updOk with
          | false => simp [addmodCmd, hb] at h
          | true =>
            simp only [addmodCmd, hb, Bool.not_true, Bool.false_eq_true,
              if_false, if_true, Except.ok.injEq] at h
            exact h.symm
        | dbError => simp [addmodCmd, hb] at h
  · intro botmasters userId username modUsername dbOk logs h
    cases hb : isBotmaster botmasters userId with
    | false => simp [removemodCmd, hb] at h
    | true =>
      cases dbOk with
      | false => simp [removemodCmd, hb] at h
      | true =>
        simp only [removemodCmd, hb, Bool.not_true, Bool.false_eq_true,
          if_false, if_true, Except.ok.injEq] at h
        exact h.symm
  · intro botmasters mods userId username target message targetId sendOk
      deal logs h
    cases hadm : isAnyAdmin botmasters mods userId with
    | none => simp [msgCmd, hadm] at h
    | some role =>
      cases hg : (role == AdminRole.moderator &&
          deal.assigned_to_telegram_id != some userId) with
      | true => simp [msgCmd, hadm, hg] at h
      | false =>
        cases targetId with
        | none => simp [msgCmd, hadm, hg] at h
        | some tid =>
          cases sendOk with
          | false => simp [msgCmd, hadm, hg] at h
          | true =>
            simp only [msgCmd, hadm, hg, Bool.false_eq_true, if_false,
              if_true, Except.ok.injEq] at h
            exact h.symm
  · intro botmasters mods userId username message deal logs h
    cases hadm : isAnyAdmin botmasters mods userId with
    | none => simp [broadcastCmd, hadm] at h
    | some role =>
      simp only [broadcastCmd, hadm, Except.ok.injEq] at h
      exact h.symm
  · intro botmasters mods userId username deal r h
    by_cases hst : deal.status = Status.disputed
    · cases hg : (!(disputerMatches deal userId username) &&
          (isAnyAdmin botmasters mods userId).isNone) with
      | true => simp [cancelDispute, hst, hg] at h
      | false =>
        simp only [cancelDispute, hst, hg, bne_self_eq_false,
          Bool.not_false, Bool.false_eq_true, if_false, if_true,
          Except.ok.injEq] at h
        rw [← h]
    · simp [cancelDispute, hst] at h

/-- C3 witness for the amended theorem: the broadcast on the sample deal by
botmaster 99 yields exactly the one broadcast audit entry. -/
theorem claim_C3_witness :
    ([⟨"broadcast", some "DP-C3AA", 99, "boss", some "both", "hello"⟩] :
        List AuditEntry) =
      [⟨"broadcast", some c3Deal.deal_id, 99, "boss", some "both",
        "hello"⟩] :=
  (claim_C3_admin_logs.2.2.2.2.2.2.1 [99] [] 99 "boss" "hello" c3Deal
    [⟨"broadcast", some "DP-C3AA", 99, "boss", some "both", "hello"⟩]
    rfl).symm ▸ rfl

/-- C1 counterexample: a botmaster resolves the disputed sample deal while
the on-chain transaction fails (or times out), yet the local status is
committed to Completed, not left at Disputed as the claim requires. -/
theorem claim_C1_counterexample :
    (resolveCmd [9] [] 9 "root" Decision.release (some ⟨5, 4⟩)
        TxResult.failed true 1000 c1Deal).result =
      Except.ok (resolveUpdate Decision.release 1000 "root" c1Deal) ∧
    (resolveUpdate Decision.release 1000 "root" c1Deal).status =
      Status.completed ∧
    Status.completed ≠ Status.disputed :=
  ⟨rfl, rfl, by decide⟩

/-- C1 amended: when an authorized admin resolves a Disputed deal, the
ledger call (when the deal is known on-chain) is attempted before the local
database write in the effect order; but an on-chain failure or timeout is
only surfaced to the caller while the local terminal status is committed
anyway, for every transaction outcome; only a database-write failure leaves
the local record unchanged. -/
theorem claim_C1_resolve (botmasters : List Nat) (mods : List Moderator)
    (userId : Nat) (username : String) (decision : Decision)
    (chain : Option ChainInfo) (txr : TxResult) (dbOk : Bool) (now : Nat)
    (deal : Deal) (role : AdminRole)
    (hadm : isAnyAdmin botmasters mods userId = some role)
    (hst : deal.status = Status.disputed)
    (hassign : role = AdminRole.moderator →
      deal.assigned_to_telegram_id = some userId) :
    (resolveCmd botmasters mods userId username decision chain txr dbOk now
        deal).effects =
      resolveLedgerEffects chain decision ++
        [Effect.dbUpdate deal.deal_id (terminalOf decision)] ∧
    (dbOk = true →
      (resolveCmd botmasters mods userId username decision chain txr dbOk now
          deal).result =
        Except.ok (resolveUpdate decision now username deal) ∧
      (resolveUpdate decision now username deal).status =
        terminalOf decision) ∧
    (chain.isSome = true → txr = TxResult.failed →
      (resolveCmd botmasters mods userId username decision chain txr dbOk now
          deal).ledgerFailureSurfaced = true) ∧
    (dbOk = false →
      (resolveCmd botmasters mods userId username decision chain txr dbOk now
          deal).result = Except.error "Failed to update database") := by
  have hguard : (role == AdminRole.moderator &&
      deal.assigned_to_telegram_id != some userId) = false := by
    cases role with
    | botmaster => rfl
    | moderator => simp [hassign rfl]
  cases dbOk with
  | false =>
    refine ⟨?_, ?_, ?_, ?_⟩ <;> simp [resolveCmd, hadm, hst, hguard] <;> tauto
  | true =>
    refine ⟨?_, ?_, ?_, ?_⟩ <;>
      simp [resolveCmd, hadm, hst, hguard, resolveUpdate] <;> tauto

/-- C1 witness for the amended theorem: on the disputed sample deal, a
failed refund transaction is surfaced while the refund is still committed
locally. -/
theorem claim_C1_witness :
    (resolveCmd [9] [] 9 "root" Decision.refund (some ⟨5, 4⟩)
        TxResult.failed true 7 c1Deal).ledgerFailureSurfaced = true :=
  (claim_C1_resolve [9] [] 9 "root" Decision.refund (some ⟨5, 4⟩)
    TxResult.failed true 7 c1Deal AdminRole.botmaster rfl rfl
    (fun h => nomatch h)).2.2.1 rfl rfl

/-- C2 counterexample: the persisted write of /canceldispute, applied to a
deal whose current status is Completed (not the expected pre-state
Disputed), still changes the status to Funded instead of rejecting the
transition with no status change. -/
theorem claim_C2_counterexample :
    c2Deal.status = Status.completed ∧
    Status.completed ≠ Status.disputed ∧
    (cancelDisputeUpdate c2Deal).status = Status.funded ∧
    (cancelDisputeUpdate c2Deal).status ≠ c2Deal.status := by
  refine ⟨rfl, by decide, rfl, by decide⟩

/-- C2 amended: the expected pre-state is enforced only against the
handler's previously-read snapshot (a success implies the snapshot was
Disputed), while the persisted writes themselves are unconditional: applied
to any current record they set the new status regardless of the current
persisted status. -/
theorem claim_C2_writes :
    (∀ botmasters mods userId username deal r,
      cancelDispute botmasters mods userId username deal = Except.ok r →
      deal.status = Status.disputed) ∧
    (∀ botmasters mods userId username decision chain txr dbOk now deal d',
      (resolveCmd botmasters mods userId username decision chain txr dbOk now
          deal).result = Except.ok d' →
      deal.status = Status.disputed) ∧
    (∀ d, (cancelDisputeUpdate d).status = Status.funded) ∧
    (∀ decision now username d,
      (resolveUpdate decision now username d).status = terminalOf decision) := by
  refine ⟨?_, ?_, fun d => rfl, fun decision now username d => rfl⟩
  · intro botmasters mods userId username deal r h
    by_cases hst : deal.status = Status.disputed
    · exact hst
    · simp [cancelDispute, hst] at h
  · intro botmasters mods userId username decision chain txr dbOk now deal d' h
    cases hadm : isAnyAdmin botmasters mods userId with
    | none => simp [resolveCmd, hadm] at h
    | some role =>
      by_cases hst : deal.status = Status.disputed
      · exact hst
      · simp [resolveCmd, hadm, hst] at h

/-- C2 witness for the amended theorem: a successful cancel-dispute run on
the disputed sample deal implies its snapshot status was Disputed. -/
theorem claim_C2_witness : c6Deal.status = Status.disputed :=
  claim_C2_writes.1 [] [] 5 "dora" c6Deal (cancelDisputeUpdate c6Deal, []) rfl

/-- C10 witness: with one registered user, a second user registering a
fresh address is accepted and the one-owner invariant still holds. -/
theorem claim_C10_witness :
    atMostOneOwner
      (upsertUser [⟨1, "al", "0xaa"⟩] ⟨2, "bea", toLowerCase "0xBB"⟩) := by
  have h := (claim_C10 2 "bea" "0xBB" [⟨1, "al", "0xaa"⟩] (by decide)).2.2
    (by decide)
  exact (claim_C10 2 "bea" "0xBB" [⟨1, "al", "0xaa"⟩] (by decide)).1 _ h

end DealPact
